import Mathlib

/-!
Verification of the push-notification dispatch core
(`push_notifications/gcm.py`): chunking of bulk sends, response handling
for single sends, and canonical-id reconciliation against the device
table.  Python dictionaries are embedded as association lists, the
Django `GCMDevice` queryset as a list of records, the HTTP gateway as a
response oracle mapping the serialized request to a response string, and
Python exceptions as an `Except` error channel.
-/

namespace PushNotifications

/-- A Python value as it occurs in the payload dict and keyword options:
a bool, an int, or a string. -/
inductive PyVal where
  | pyBool (b : Bool)
  | pyInt (n : Int)
  | pyStr (s : String)
deriving DecidableEq

/-- Python truthiness (`if v:`): `False`, `0` and `""` are falsy. -/
def PyVal.truthy : PyVal → Bool
  | .pyBool b => b
  | .pyInt n => n != 0
  | .pyStr s => s != ""

/-- Python `isinstance(v, bool)`. -/
def PyVal.isBool : PyVal → Bool
  | .pyBool _ => true
  | _ => false

/-- Python `str(v)` for the embedded values. -/
def PyVal.str : PyVal → String
  | .pyBool true => "True"
  | .pyBool false => "False"
  | .pyInt n => toString n
  | .pyStr s => s

/-- Python `s.startswith(p)`, computed on the underlying character
lists so that concrete instances evaluate in the kernel. -/
def pyStartsWith (s p : String) : Bool :=
  p.data.isPrefixOf s.data

/-- Worker for `pySplit`: split a character list at every occurrence of
the separator, keeping empty pieces, as Python `s.split(sep)` does for
an explicit one-character separator. -/
def splitOnCharAux (sep : Char) : List Char → List Char → List (List Char)
  | [], acc => [acc.reverse]
  | c :: cs, acc =>
    if c = sep then acc.reverse :: splitOnCharAux sep cs []
    else splitOnCharAux sep cs (c :: acc)

/-- Python `s.split(sep)` for a one-character separator (as used on
`"\n"` and `"="` in `_gcm_send_plain`).  Never returns an empty list,
so Python subscript `[-1]` corresponds to `List.getLastD`. -/
def pySplit (s : String) (sep : Char) : List String :=
  (splitOnCharAux sep s.data []).map List.asString

/-- One row of the device table: the fields of `GCMDevice` that this
module reads and writes (`registration_id`, `active`). -/
structure GCMDevice where
  registration_id : String
  active : Bool
deriving DecidableEq

/-- Python exceptions this module can raise: `NameError` for an unbound
name, and `GCMError(msg)`. -/
inductive PyErr where
  | nameError (n : String)
  | gcmError (msg : String)
deriving DecidableEq

/-- A Python return value of the dispatch functions: `None`, a string,
or a list. -/
inductive PyRet where
  | noneVal
  | strVal (s : String)
  | listVal (items : List PyRet)

/-- Does a `strVal` occur anywhere inside a return value?  Used to
state that the raw response strings never reach the caller of bulk
dispatch. -/
def PyRet.mentionsStr : PyRet → Bool
  | .noneVal => false
  | .strVal _ => true
  | .listVal [] => false
  | .listVal (x :: xs) => x.mentionsStr || (PyRet.listVal xs).mentionsStr

/-- Embedding of `_chunks(l, n)`: `for i in range(0, len(l), n): yield l[i:i + n]`,
as successive take/drop.  Python raises `ValueError` on step `n = 0`;
the embedding returns `[]` there and every theorem assumes `0 < n`. -/
def chunks {α : Type} (l : List α) (n : Nat) : List (List α) :=
  if _h : l.length = 0 ∨ n = 0 then []
  else l.take n :: chunks (l.drop n) n
termination_by l.length
decreasing_by
  push_neg at _h
  simp only [List.length_drop]
  omega

/-- Embedding of `_gcm_handle_canonical_id(canonical_id, current_id)`: if an active
device with the canonical id exists, deactivate every device with the
current id; otherwise rewrite their `registration_id` to the canonical
id.  A queryset `update` touches every matching row and deletes
nothing. -/
def gcm_handle_canonical_id (canonical_id current_id : String)
    (db : List GCMDevice) : List GCMDevice :=
  if db.any (fun d => d.registration_id == canonical_id && d.active) then
    db.map (fun d =>
      if d.registration_id == current_id then { d with active := false } else d)
  else
    db.map (fun d =>
      if d.registration_id == current_id then { d with registration_id := canonical_id } else d)

/-- The `msg_objects` request built by `_gcm_send_plain`: the target
token, notification title/body looked up in the payload, the payload
itself, and the extra top-level keys merged from the keyword options. -/
structure MsgObjects where
  token : String
  title : Option PyVal
  body : Option PyVal
  data : List (String × PyVal)
  extra : List (String × PyVal)

/-- The keyword-option merge loop of `_gcm_send_plain`: an option is
added only when its value is truthy, and a (truthy) bool is replaced by
the string `"1"` first. -/
def merge_kwargs (kwargs : List (String × PyVal)) : List (String × PyVal) :=
  kwargs.filterMap (fun kv =>
    if kv.2.truthy then
      some (kv.1, if kv.2.isBool then PyVal.pyStr "1" else kv.2)
    else none)

/-- The `msg_objects` dict as first assembled in `_gcm_send_plain`
(before the payload values are stringified). -/
def build_msg_objects (registration_id : String)
    (data kwargs : List (String × PyVal)) : MsgObjects :=
  { token := registration_id
    title := data.lookup "title"
    body := data.lookup "message"
    data := data
    extra := merge_kwargs kwargs }

/-- The loop `for k, v in data.items(): data[k] = str(v)`: every value
of the payload dict is replaced in place by its Python string form. -/
def stringify_data (data : List (String × PyVal)) : List (String × PyVal) :=
  data.map (fun kv => (kv.1, PyVal.pyStr kv.2.str))

/-- The request as serialized by `json.dumps`: since
`msg_objects["message"]["data"]` aliases the payload dict, the
stringification that runs before the dump is visible in it. -/
def sent_msg (registration_id : String)
    (data kwargs : List (String × PyVal)) : MsgObjects :=
  { build_msg_objects registration_id data kwargs with data := stringify_data data }

/-- Response handling of `_gcm_send_plain` (the part after
`_gcm_send`), returning the device table after any update, the
arguments passed to `_gcm_handle_canonical_id` when it is invoked, and
the returned string or raised exception.  In the recoverable-error
branch the source reads `values["registration_id"]`, but no name
`values` is bound anywhere in the module, so Python raises a
`NameError` there before any database access. -/
def handle_response (result registration_id : String) (db : List GCMDevice) :
    List GCMDevice × Option (String × String) × Except PyErr String :=
  if pyStartsWith result "id" then
    let lines := pySplit result '\n'
    if lines.length > 1 && pyStartsWith (lines.getD 1 "") "registration_id" then
      let new_id := (pySplit (lines.getD 1 "") '=').getLastD ""
      (gcm_handle_canonical_id new_id registration_id db,
       some (new_id, registration_id), Except.ok result)
    else (db, none, Except.ok result)
  else if pyStartsWith result "Error=" then
    if result == "Error=NotRegistered" || result == "Error=InvalidRegistration" then
      (db, none, Except.error (PyErr.nameError "values"))
    else (db, none, Except.error (PyErr.gcmError result))
  else (db, none, Except.ok result)

/-- Outcome of one `_gcm_send_plain` call: the post-call contents of
the caller-supplied payload dict (mutated in place by the function),
the device table, the reconciliation invocation if any, and the result
or exception. -/
structure PlainOutcome where
  data : List (String × PyVal)
  db : List GCMDevice
  recon : Option (String × String)
  ret : Except PyErr String

/-- Embedding of `_gcm_send_plain(registration_id, data, **kwargs)`: build
`msg_objects`, stringify the payload in place, send (the gateway is the
oracle `resp` from serialized request to response body), then handle
the response. -/
def gcm_send_plain (resp : MsgObjects → String) (registration_id : String)
    (data kwargs : List (String × PyVal)) (db : List GCMDevice) : PlainOutcome :=
  let data2 := stringify_data data
  let result := resp (sent_msg registration_id data kwargs)
  let r := handle_response result registration_id db
  { data := data2, db := r.1, recon := r.2.1, ret := r.2.2 }

/-- The function `gcm_send_message` simply forwards to `_gcm_send_plain`. -/
def gcm_send_message (resp : MsgObjects → String) (registration_id : String)
    (data kwargs : List (String × PyVal)) (db : List GCMDevice) : PlainOutcome :=
  gcm_send_plain resp registration_id data kwargs db

/-- Outcome of `_gcm_send_json`: which registration ids were actually
sent (in order), the payload dict and device table afterwards, and the
Python return value — `None` on success, since the loop discards the
value of every `_gcm_send_plain` call — or the propagated exception. -/
structure JsonOutcome where
  sent : List String
  data : List (String × PyVal)
  db : List GCMDevice
  ret : Except PyErr PyRet

/-- Embedding of `_gcm_send_json(registration_ids, data, **kwargs)`: send to each id
in turn with `_gcm_send_plain`, discarding each result; an exception
aborts the loop and propagates; falling off the loop returns `None`. -/
def gcm_send_json (resp : MsgObjects → String) :
    List String → List (String × PyVal) → List (String × PyVal) →
    List GCMDevice → JsonOutcome
  | [], data, _kwargs, db => ⟨[], data, db, Except.ok PyRet.noneVal⟩
  | rid :: rest, data, kwargs, db =>
    let o := gcm_send_plain resp rid data kwargs db
    match o.ret with
    | Except.error e => ⟨[rid], o.data, o.db, Except.error e⟩
    | Except.ok _ =>
      let o2 := gcm_send_json resp rest o.data kwargs o.db
      ⟨rid :: o2.sent, o2.data, o2.db, o2.ret⟩

/-- Outcome of `gcm_send_bulk_message`: the identifier groups passed to
`_gcm_send_json`, the ids actually sent, payload and device table
afterwards, and the return value or exception. -/
structure BulkOutcome where
  groups : List (List String)
  sent : List String
  data : List (String × PyVal)
  db : List GCMDevice
  ret : Except PyErr PyRet

/-- The chunked loop of `gcm_send_bulk_message`:
`for chunk in _chunks(...): ret.append(_gcm_send_json(chunk, ...))`,
aborted by the first exception, returning the accumulated list. -/
def bulk_loop (resp : MsgObjects → String) :
    List (List String) → List (String × PyVal) → List (String × PyVal) →
    List GCMDevice → List PyRet → BulkOutcome
  | [], data, _kwargs, db, acc => ⟨[], [], data, db, Except.ok (PyRet.listVal acc)⟩
  | chunk :: rest, data, kwargs, db, acc =>
    let o := gcm_send_json resp chunk data kwargs db
    match o.ret with
    | Except.error e => ⟨[chunk], o.sent, o.data, o.db, Except.error e⟩
    | Except.ok r =>
      let o2 := bulk_loop resp rest o.data kwargs o.db (acc ++ [r])
      ⟨chunk :: o2.groups, o.sent ++ o2.sent, o2.data, o2.db, o2.ret⟩

/-- Embedding of `gcm_send_bulk_message(registration_ids, data, **kwargs)` with
`max_recipients = SETTINGS.get("GCM_MAX_RECIPIENTS")`: when the id list
is strictly longer than the maximum, loop over `_chunks` collecting the
(`None`) value of each `_gcm_send_json` call; otherwise one direct
`_gcm_send_json` call on the whole list, whose value (`None` on
success) is returned. -/
def gcm_send_bulk_message (resp : MsgObjects → String)
    (registration_ids : List String) (data kwargs : List (String × PyVal))
    (db : List GCMDevice) (max_recipients : Nat) : BulkOutcome :=
  if registration_ids.length > max_recipients then
    bulk_loop resp (chunks registration_ids max_recipients) data kwargs db []
  else
    let o := gcm_send_json resp registration_ids data kwargs db
    ⟨[registration_ids], o.sent, o.data, o.db, o.ret⟩

/-! ## Chunking lemmas -/

theorem chunks_nil {α : Type} (n : Nat) : chunks ([] : List α) n = [] := by
  rw [chunks]
  simp

theorem chunks_eq {α : Type} (l : List α) (n : Nat) (hl : l ≠ []) (hn : 0 < n) :
    chunks l n = l.take n :: chunks (l.drop n) n := by
  rw [chunks, dif_neg]
  push_neg
  exact ⟨fun h0 => hl (List.length_eq_zero.mp h0), by omega⟩

theorem chunks_join_aux {α : Type} :
    ∀ (N : Nat) (l : List α) (n : Nat), 0 < n → l.length ≤ N →
      (chunks l n).flatten = l := by
  intro N
  induction N with
  | zero =>
    intro l n hn hl
    have hnil : l = [] := List.length_eq_zero.mp (Nat.le_zero.mp hl)
    subst hnil
    simp [chunks_nil]
  | succ N ih =>
    intro l n hn hl
    by_cases hnil : l = []
    · subst hnil
      simp [chunks_nil]
    · rw [chunks_eq l n hnil hn, List.flatten_cons,
        ih (l.drop n) n hn (by simp only [List.length_drop]; omega)]
      exact List.take_append_drop n l

theorem chunks_length_aux {α : Type} :
    ∀ (N : Nat) (l : List α) (n : Nat), 0 < n → l.length ≤ N →
      (chunks l n).length = (l.length + n - 1) / n := by
  intro N
  induction N with
  | zero =>
    intro l n hn hl
    have hnil : l = [] := List.length_eq_zero.mp (Nat.le_zero.mp hl)
    subst hnil
    rw [chunks_nil]
    simp only [List.length_nil, Nat.zero_add]
    rw [Nat.div_eq_of_lt (by omega)]
  | succ N ih =>
    intro l n hn hl
    by_cases hnil : l = []
    · subst hnil
      rw [chunks_nil]
      simp only [List.length_nil, Nat.zero_add]
      rw [Nat.div_eq_of_lt (by omega)]
    · have hL1 : 1 ≤ l.length := List.length_pos.mpr hnil
      rw [chunks_eq l n hnil hn, List.length_cons,
        ih (l.drop n) n hn (by simp only [List.length_drop]; omega)]
      simp only [List.length_drop]
      by_cases hcase : l.length ≤ n
      · rw [show l.length - n = 0 from by omega]
        rw [Nat.div_eq_of_lt (by omega)]
        symm
        exact Nat.div_eq_of_lt_le (by omega) (by omega)
      · rw [show l.length - n + n - 1 = l.length - 1 from by omega,
          show l.length + n - 1 = (l.length - 1) + n from by omega,
          Nat.add_div_right _ hn]

theorem chunks_sizes_aux {α : Type} :
    ∀ (N : Nat) (l : List α) (n : Nat), 0 < n → l.length ≤ N →
      ∀ c ∈ chunks l n, c.length ≤ n := by
  intro N
  induction N with
  | zero =>
    intro l n hn hl
    have hnil : l = [] := List.length_eq_zero.mp (Nat.le_zero.mp hl)
    subst hnil
    simp [chunks_nil]
  | succ N ih =>
    intro l n hn hl
    by_cases hnil : l = []
    · subst hnil
      simp [chunks_nil]
    · rw [chunks_eq l n hnil hn]
      intro c hc
      rcases List.mem_cons.mp hc with hc | hc
      · subst hc
        rw [List.length_take]
        exact Nat.min_le_left _ _
      · exact ih (l.drop n) n hn (by simp only [List.length_drop]; omega) c hc

/-- C1: for every identifier list `l` and maximum chunk size `n > 0`,
`_chunks` yields `ceil(length l / n)` chunks (as the rounding-up
division `(length l + n - 1) / n`), each chunk has size at most `n`,
and the concatenation of the chunks in order is exactly `l` (so every
identifier appears in exactly one chunk, order preserved, nothing
deduplicated). -/
theorem chunks_partition_spec {α : Type} (l : List α) (n : Nat) (hn : 0 < n) :
    (chunks l n).length = (l.length + n - 1) / n ∧
    (∀ c ∈ chunks l n, c.length ≤ n) ∧
    (chunks l n).flatten = l :=
  ⟨chunks_length_aux l.length l n hn le_rfl,
   chunks_sizes_aux l.length l n hn le_rfl,
   chunks_join_aux l.length l n hn le_rfl⟩

/-- Witness for C1 at the concrete list `["a", "b", "c"]` with maximum 2. -/
theorem chunks_partition_spec_witness :
    (chunks ["a", "b", "c"] 2).length = (["a", "b", "c"].length + 2 - 1) / 2 ∧
    (∀ c ∈ chunks ["a", "b", "c"] 2, c.length ≤ 2) ∧
    (chunks ["a", "b", "c"] 2).flatten = ["a", "b", "c"] :=
  chunks_partition_spec ["a", "b", "c"] 2 (by decide)

/-! ## Single-send response handling -/

theorem pyStartsWith_error_not_id (s : String)
    (h : pyStartsWith s "Error=" = true) : pyStartsWith s "id" = false := by
  unfold pyStartsWith at h ⊢
  rw [List.isPrefixOf_iff_prefix] at h
  obtain ⟨t, ht⟩ := h
  have hs : s.data = 'E' :: 'r' :: 'r' :: 'o' :: 'r' :: '=' :: t := by
    rw [← ht]
    rfl
  rw [hs]
  rfl

theorem gcm_send_plain_unfold (resp : MsgObjects → String) (rid s : String)
    (data kwargs : List (String × PyVal)) (db : List GCMDevice)
    (hresp : resp (sent_msg rid data kwargs) = s) :
    gcm_send_plain resp rid data kwargs db =
      { data := stringify_data data,
        db := (handle_response s rid db).1,
        recon := (handle_response s rid db).2.1,
        ret := (handle_response s rid db).2.2 } := by
  unfold gcm_send_plain
  rw [hresp]

/-- C4: a single send whose gateway response starts with `"Error="` and
is neither `"Error=NotRegistered"` nor `"Error=InvalidRegistration"`
raises `GCMError` carrying the literal raw response string; nothing is
returned and the device table and reconciliation are untouched. -/
theorem gcm_error_on_unrecoverable (resp : MsgObjects → String) (rid s : String)
    (data kwargs : List (String × PyVal)) (db : List GCMDevice)
    (hresp : resp (sent_msg rid data kwargs) = s)
    (hpre : pyStartsWith s "Error=" = true)
    (h1 : s ≠ "Error=NotRegistered") (h2 : s ≠ "Error=InvalidRegistration") :
    (gcm_send_plain resp rid data kwargs db).ret =
        Except.error (PyErr.gcmError s) ∧
    (gcm_send_plain resp rid data kwargs db).db = db ∧
    (gcm_send_plain resp rid data kwargs db).recon = none := by
  rw [gcm_send_plain_unfold resp rid s data kwargs db hresp]
  unfold handle_response
  rw [if_neg, if_pos, if_neg]
  · exact ⟨rfl, rfl, rfl⟩
  · simp [h1, h2]
  · rw [hpre]
  · rw [pyStartsWith_error_not_id s hpre]
    exact Bool.false_ne_true

/-- Witness for C4 at the response `"Error=MismatchSenderId"`. -/
theorem gcm_error_on_unrecoverable_witness :
    (gcm_send_plain (fun _ => "Error=MismatchSenderId") "X" [] [] []).ret =
        Except.error (PyErr.gcmError "Error=MismatchSenderId") ∧
    (gcm_send_plain (fun _ => "Error=MismatchSenderId") "X" [] [] []).db = [] ∧
    (gcm_send_plain (fun _ => "Error=MismatchSenderId") "X" [] [] []).recon = none :=
  gcm_error_on_unrecoverable _ "X" "Error=MismatchSenderId" [] [] [] rfl
    (by decide) (by decide) (by decide)

/-- C3 (code path at the recoverable errors): on the responses
`"Error=NotRegistered"` and `"Error=InvalidRegistration"` the source
reads the unbound name `values`, so the call raises a `NameError`: the
device record is NOT deactivated (the table is returned unchanged, the
device still active) and the response string is NOT returned. -/
theorem recoverable_error_raises_nameerror :
    gcm_send_plain (fun _ => "Error=NotRegistered") "X" [] []
        [⟨"X", true⟩] =
      ⟨[], [⟨"X", true⟩], none, Except.error (PyErr.nameError "values")⟩ ∧
    gcm_send_plain (fun _ => "Error=InvalidRegistration") "X" [] []
        [⟨"X", true⟩] =
      ⟨[], [⟨"X", true⟩], none, Except.error (PyErr.nameError "values")⟩ :=
  ⟨rfl, rfl⟩

/-- C7: when the identifier list has exactly `max_recipients` elements,
the chunked path is not taken: exactly one group — the whole list — is
passed to `_gcm_send_json`. -/
theorem bulk_no_split_at_boundary (resp : MsgObjects → String)
    (ids : List String) (data kwargs : List (String × PyVal))
    (db : List GCMDevice) (mx : Nat) (h : ids.length = mx) :
    (gcm_send_bulk_message resp ids data kwargs db mx).groups = [ids] := by
  unfold gcm_send_bulk_message
  rw [if_neg (by omega)]

/-- Witness for C7 at a two-element list with maximum 2. -/
theorem bulk_no_split_at_boundary_witness :
    (gcm_send_bulk_message (fun _ => "id=1") ["a", "b"] [] [] [] 2).groups =
      [["a", "b"]] :=
  bulk_no_split_at_boundary (fun _ => "id=1") ["a", "b"] [] [] [] 2 rfl

/-! ## Payload stringification -/

theorem lookup_stringify (data : List (String × PyVal)) (k : String) :
    (stringify_data data).lookup k =
      (data.lookup k).map (fun v => PyVal.pyStr v.str) := by
  induction data with
  | nil => rfl
  | cons kv rest ih =>
    rcases kv with ⟨k1, v1⟩
    by_cases h : k == k1
    · simp [stringify_data, List.lookup, h]
    · simp only [Bool.not_eq_true] at h
      simp only [stringify_data, List.map_cons, List.lookup, h] at ih ⊢
      exact ih

theorem keys_stringify (data : List (String × PyVal)) :
    (stringify_data data).map Prod.fst = data.map Prod.fst := by
  induction data with
  | nil => rfl
  | cons kv rest ih =>
    simp only [stringify_data, List.map_cons] at ih ⊢
    rw [ih]

/-- C10: a single send leaves the caller-supplied payload mapping
mutated: afterwards it has the same keys in the same order, and every
value is the Python string form (`str`) of the original value. -/
theorem gcm_send_plain_stringifies_payload (resp : MsgObjects → String)
    (rid : String) (data kwargs : List (String × PyVal)) (db : List GCMDevice) :
    ((gcm_send_plain resp rid data kwargs db).data).map Prod.fst =
        data.map Prod.fst ∧
    ∀ k, ((gcm_send_plain resp rid data kwargs db).data).lookup k =
        (data.lookup k).map (fun v => PyVal.pyStr v.str) := by
  refine ⟨?_, fun k => ?_⟩
  · exact keys_stringify data
  · exact lookup_stringify data k

/-! ## Canonical-id reconciliation -/

/-- C5: reconciliation with new id `N` and old id `X` keeps the table
length (no record deleted).  When an active record for `N` exists,
every record whose id is `X` is deactivated but keeps its id (not
reassigned); otherwise every record whose id is `X` keeps its activity
flag and has its id rewritten in place to `N`.  Records with other ids
are untouched in both cases. -/
theorem gcm_handle_canonical_id_spec (N X : String) (db : List GCMDevice) :
    (gcm_handle_canonical_id N X db).length = db.length ∧
    (db.any (fun d => d.registration_id == N && d.active) = true →
      ∀ i (hi : i < db.length) (hi2 : i < (gcm_handle_canonical_id N X db).length),
        (gcm_handle_canonical_id N X db).get ⟨i, hi2⟩ =
          (if (db.get ⟨i, hi⟩).registration_id == X
           then { db.get ⟨i, hi⟩ with active := false }
           else db.get ⟨i, hi⟩)) ∧
    (db.any (fun d => d.registration_id == N && d.active) = false →
      ∀ i (hi : i < db.length) (hi2 : i < (gcm_handle_canonical_id N X db).length),
        (gcm_handle_canonical_id N X db).get ⟨i, hi2⟩ =
          (if (db.get ⟨i, hi⟩).registration_id == X
           then { db.get ⟨i, hi⟩ with registration_id := N }
           else db.get ⟨i, hi⟩)) := by
  refine ⟨?_, ?_, ?_⟩
  · unfold gcm_handle_canonical_id
    split <;> rw [List.length_map]
  · intro hany i hi hi2
    simp only [gcm_handle_canonical_id, hany, if_true, List.get_eq_getElem,
      List.getElem_map]
  · intro hany i hi hi2
    simp only [gcm_handle_canonical_id, hany, Bool.false_eq_true, if_false,
      List.get_eq_getElem, List.getElem_map]

/-- Witness for C5: with an active record for the new id, the old-id
record is deactivated in place and nothing is deleted. -/
theorem gcm_handle_canonical_id_spec_witness :
    (gcm_handle_canonical_id "N" "X" [⟨"N", true⟩, ⟨"X", true⟩]).length = 2 ∧
    (gcm_handle_canonical_id "N" "X" [⟨"N", true⟩, ⟨"X", true⟩]).get
        ⟨1, by decide⟩ = ⟨"X", false⟩ := by
  have h := gcm_handle_canonical_id_spec "N" "X" [⟨"N", true⟩, ⟨"X", true⟩]
  refine ⟨h.1, ?_⟩
  have h2 := h.2.1 (by decide) 1 (by decide) (by decide)
  simpa using h2

/-- C6: for a single send whose response starts with `"id"`: when the
second line exists and starts with `"registration_id"`, reconciliation
is invoked with the segment after the last `"="` of that line as new id
and the sent registration id as old id, and the device table becomes
the result of that invocation; when there is no such second line,
reconciliation is not invoked and the table is untouched. -/
theorem canonical_id_invocation (resp : MsgObjects → String) (rid s : String)
    (data kwargs : List (String × PyVal)) (db : List GCMDevice)
    (hresp : resp (sent_msg rid data kwargs) = s)
    (hid : pyStartsWith s "id" = true) :
    (((pySplit s '\n').length > 1 ∧
        pyStartsWith ((pySplit s '\n').getD 1 "") "registration_id" = true) →
      (gcm_send_plain resp rid data kwargs db).recon =
          some ((pySplit ((pySplit s '\n').getD 1 "") '=').getLastD "", rid) ∧
      (gcm_send_plain resp rid data kwargs db).db =
          gcm_handle_canonical_id
            ((pySplit ((pySplit s '\n').getD 1 "") '=').getLastD "") rid db) ∧
    (¬((pySplit s '\n').length > 1 ∧
        pyStartsWith ((pySplit s '\n').getD 1 "") "registration_id" = true) →
      (gcm_send_plain resp rid data kwargs db).recon = none ∧
      (gcm_send_plain resp rid data kwargs db).db = db) := by
  rw [gcm_send_plain_unfold resp rid s data kwargs db hresp]
  unfold handle_response
  rw [if_pos hid]
  constructor
  · rintro ⟨hlen, hsw⟩
    rw [if_pos (by simp only [Bool.and_eq_true, decide_eq_true_eq]; exact ⟨hlen, hsw⟩)]
    exact ⟨rfl, rfl⟩
  · intro hneg
    rw [if_neg (by
      intro hcond
      simp only [Bool.and_eq_true, decide_eq_true_eq] at hcond
      exact hneg hcond)]
    exact ⟨rfl, rfl⟩

/-- Witness for C6: the response `"id=123\nregistration_id=456"` sent
for `"X"` invokes reconciliation with `("456", "X")`; the response
`"id=123"` does not invoke it. -/
theorem canonical_id_invocation_witness :
    (gcm_send_plain (fun _ => "id=123\nregistration_id=456") "X" [] [] []).recon =
        some ("456", "X") ∧
    (gcm_send_plain (fun _ => "id=123") "X" [] [] []).recon = none := by
  constructor
  · have h := (canonical_id_invocation (fun _ => "id=123\nregistration_id=456")
      "X" "id=123\nregistration_id=456" [] [] [] rfl (by decide)).1
      ⟨by decide, by decide⟩
    rw [h.1]
    decide
  · exact ((canonical_id_invocation (fun _ => "id=123") "X" "id=123" [] [] []
      rfl (by decide)).2 (by decide)).1

/-! ## Keyword-option merging -/

/-- C8 counterexample: the claim says every boolean option is merged as
`"1"` and every scalar option is merged unchanged, but the guard
`if v:` drops falsy values entirely: the boolean `False` and the scalar
`0` never reach the request object. -/
theorem merge_kwargs_drops_falsy_cex :
    (build_msg_objects "X" []
        [("delay_while_idle", PyVal.pyBool false)]).extra.lookup
      "delay_while_idle" = none ∧
    (none : Option PyVal) ≠ some (PyVal.pyStr "1") ∧
    (build_msg_objects "X" [] [("badge", PyVal.pyInt 0)]).extra.lookup
      "badge" = none :=
  ⟨rfl, by decide, rfl⟩

theorem lookup_merge_kwargs_none (kwargs : List (String × PyVal)) (k : String)
    (h : k ∉ kwargs.map Prod.fst) : (merge_kwargs kwargs).lookup k = none := by
  induction kwargs with
  | nil => rfl
  | cons kv rest ih =>
    rcases kv with ⟨k1, v1⟩
    simp only [List.map_cons, List.mem_cons, not_or] at h
    have hkk : (k == k1) = false := by
      simp only [beq_eq_false_iff_ne, ne_eq]
      exact h.1
    by_cases ht : v1.truthy = true
    · simp only [merge_kwargs, List.filterMap_cons, ht, if_true, List.lookup, hkk]
      exact ih h.2
    · rw [Bool.not_eq_true] at ht
      simp only [merge_kwargs, List.filterMap_cons, ht, Bool.false_eq_true, if_false]
      exact ih h.2

/-- C8 (amended): a keyword option whose value is truthy is merged into
the request object — a boolean coerced to the literal string `"1"`, any
other value unchanged — while an option with a falsy value is omitted
entirely. -/
theorem merge_kwargs_truthy_spec (rid : String)
    (data kwargs : List (String × PyVal)) (k : String) (v : PyVal)
    (hnodup : (kwargs.map Prod.fst).Nodup) (hk : kwargs.lookup k = some v) :
    (build_msg_objects rid data kwargs).extra.lookup k =
      (if v.truthy then some (if v.isBool then PyVal.pyStr "1" else v)
       else none) := by
  induction kwargs with
  | nil => simp [List.lookup] at hk
  | cons kv rest ih =>
    rcases kv with ⟨k1, v1⟩
    simp only [List.map_cons, List.nodup_cons] at hnodup
    show (merge_kwargs ((k1, v1) :: rest)).lookup k = _
    simp only [merge_kwargs, List.filterMap_cons]
    by_cases hkk : (k == k1) = true
    · have hv : v1 = v := by
        simp only [List.lookup, hkk] at hk
        exact Option.some.inj hk
      subst hv
      have hknotin : k ∉ rest.map Prod.fst := by
        rw [show k = k1 from by simpa using hkk]
        simpa using hnodup.1
      by_cases ht : v1.truthy = true
      · simp only [List.filterMap_cons, ht, if_true, List.lookup, hkk]
      · rw [Bool.not_eq_true] at ht
        simp only [List.filterMap_cons, ht, Bool.false_eq_true, if_false]
        exact lookup_merge_kwargs_none rest k hknotin
    · have hkk2 : (k == k1) = false := by
        simpa using hkk
      have hkrest : rest.lookup k = some v := by
        simpa [List.lookup, hkk2] using hk
      have ihr := ih hnodup.2 hkrest
      by_cases ht : v1.truthy = true
      · simp only [List.filterMap_cons, ht, if_true, List.lookup, hkk2]
        simpa [merge_kwargs] using ihr
      · rw [Bool.not_eq_true] at ht
        simp only [List.filterMap_cons, ht, Bool.false_eq_true, if_false]
        simpa [merge_kwargs] using ihr

/-- Witness for C8 (amended): the truthy boolean `True` is merged as
the string `"1"`. -/
theorem merge_kwargs_truthy_spec_witness :
    (build_msg_objects "X" []
        [("delay_while_idle", PyVal.pyBool true),
         ("badge", PyVal.pyInt 5)]).extra.lookup "delay_while_idle" =
      some (PyVal.pyStr "1") := by
  simpa using merge_kwargs_truthy_spec "X" []
    [("delay_while_idle", PyVal.pyBool true), ("badge", PyVal.pyInt 5)]
    "delay_while_idle" (PyVal.pyBool true) (by decide) (by decide)

/-! ## Bulk dispatch: loop unfolding lemmas -/

theorem gcm_send_json_cons_error (resp : MsgObjects → String)
    (rid : String) (rest : List String) (data kwargs : List (String × PyVal))
    (db : List GCMDevice) (e : PyErr)
    (h : (gcm_send_plain resp rid data kwargs db).ret = Except.error e) :
    gcm_send_json resp (rid :: rest) data kwargs db =
      ⟨[rid], (gcm_send_plain resp rid data kwargs db).data,
        (gcm_send_plain resp rid data kwargs db).db, Except.error e⟩ := by
  simp only [gcm_send_json]
  rw [h]

theorem gcm_send_json_cons_ok (resp : MsgObjects → String)
    (rid : String) (rest : List String) (data kwargs : List (String × PyVal))
    (db : List GCMDevice) (r : String)
    (h : (gcm_send_plain resp rid data kwargs db).ret = Except.ok r) :
    gcm_send_json resp (rid :: rest) data kwargs db =
      ⟨rid :: (gcm_send_json resp rest (gcm_send_plain resp rid data kwargs db).data
          kwargs (gcm_send_plain resp rid data kwargs db).db).sent,
        (gcm_send_json resp rest (gcm_send_plain resp rid data kwargs db).data
          kwargs (gcm_send_plain resp rid data kwargs db).db).data,
        (gcm_send_json resp rest (gcm_send_plain resp rid data kwargs db).data
          kwargs (gcm_send_plain resp rid data kwargs db).db).db,
        (gcm_send_json resp rest (gcm_send_plain resp rid data kwargs db).data
          kwargs (gcm_send_plain resp rid data kwargs db).db).ret⟩ := by
  simp only [gcm_send_json]
  rw [h]

theorem bulk_loop_cons_error (resp : MsgObjects → String)
    (c : List String) (rest : List (List String))
    (data kwargs : List (String × PyVal)) (db : List GCMDevice)
    (acc : List PyRet) (e : PyErr)
    (h : (gcm_send_json resp c data kwargs db).ret = Except.error e) :
    bulk_loop resp (c :: rest) data kwargs db acc =
      ⟨[c], (gcm_send_json resp c data kwargs db).sent,
        (gcm_send_json resp c data kwargs db).data,
        (gcm_send_json resp c data kwargs db).db, Except.error e⟩ := by
  simp only [bulk_loop]
  rw [h]

theorem bulk_loop_cons_ok (resp : MsgObjects → String)
    (c : List String) (rest : List (List String))
    (data kwargs : List (String × PyVal)) (db : List GCMDevice)
    (acc : List PyRet) (r : PyRet)
    (h : (gcm_send_json resp c data kwargs db).ret = Except.ok r) :
    bulk_loop resp (c :: rest) data kwargs db acc =
      ⟨c :: (bulk_loop resp rest (gcm_send_json resp c data kwargs db).data kwargs
          (gcm_send_json resp c data kwargs db).db (acc ++ [r])).groups,
        (gcm_send_json resp c data kwargs db).sent ++
          (bulk_loop resp rest (gcm_send_json resp c data kwargs db).data kwargs
            (gcm_send_json resp c data kwargs db).db (acc ++ [r])).sent,
        (bulk_loop resp rest (gcm_send_json resp c data kwargs db).data kwargs
          (gcm_send_json resp c data kwargs db).db (acc ++ [r])).data,
        (bulk_loop resp rest (gcm_send_json resp c data kwargs db).data kwargs
          (gcm_send_json resp c data kwargs db).db (acc ++ [r])).db,
        (bulk_loop resp rest (gcm_send_json resp c data kwargs db).data kwargs
          (gcm_send_json resp c data kwargs db).db (acc ++ [r])).ret⟩ := by
  simp only [bulk_loop]
  rw [h]

/-! ## Error propagation in bulk dispatch -/

theorem gcm_send_json_append_error (resp : MsgObjects → String) :
    ∀ (pre : List String) (x : String) (post : List String)
      (data kwargs : List (String × PyVal)) (db : List GCMDevice) (e : PyErr),
      (gcm_send_json resp pre data kwargs db).ret = Except.ok PyRet.noneVal →
      (gcm_send_plain resp x (gcm_send_json resp pre data kwargs db).data kwargs
          (gcm_send_json resp pre data kwargs db).db).ret = Except.error e →
      gcm_send_json resp (pre ++ x :: post) data kwargs db =
        ⟨pre ++ [x],
          (gcm_send_plain resp x (gcm_send_json resp pre data kwargs db).data kwargs
            (gcm_send_json resp pre data kwargs db).db).data,
          (gcm_send_plain resp x (gcm_send_json resp pre data kwargs db).data kwargs
            (gcm_send_json resp pre data kwargs db).db).db,
          Except.error e⟩ := by
  intro pre
  induction pre with
  | nil =>
    intro x post data kwargs db e _hpre hx
    exact gcm_send_json_cons_error resp x post data kwargs db e hx
  | cons p ps ih =>
    intro x post data kwargs db e hpre hx
    cases hp : (gcm_send_plain resp p data kwargs db).ret with
    | error e0 =>
      rw [gcm_send_json_cons_error resp p ps data kwargs db e0 hp] at hpre
      cases hpre
    | ok r0 =>
      have hstep := gcm_send_json_cons_ok resp p ps data kwargs db r0 hp
      rw [hstep] at hpre hx
      have ihr := ih x post (gcm_send_plain resp p data kwargs db).data kwargs
        (gcm_send_plain resp p data kwargs db).db e hpre hx
      show gcm_send_json resp (p :: (ps ++ x :: post)) data kwargs db = _
      rw [gcm_send_json_cons_ok resp p (ps ++ x :: post) data kwargs db r0 hp, ihr,
        hstep]
      rfl

/-- C9: if, after the identifiers in `pre` have been sent successfully,
the send to `x` raises, then `_gcm_send_json` on `pre ++ x :: post`
sends exactly `pre ++ [x]` — none of the identifiers in `post` is sent,
and no per-device report of the partial failure is produced — and the
exception propagates through `gcm_send_bulk_message` to the caller. -/
theorem gcm_send_json_error_aborts (resp : MsgObjects → String)
    (pre : List String) (x : String) (post : List String)
    (data kwargs : List (String × PyVal)) (db : List GCMDevice) (e : PyErr)
    (hpre : (gcm_send_json resp pre data kwargs db).ret = Except.ok PyRet.noneVal)
    (hx : (gcm_send_plain resp x (gcm_send_json resp pre data kwargs db).data kwargs
        (gcm_send_json resp pre data kwargs db).db).ret = Except.error e) :
    (gcm_send_json resp (pre ++ x :: post) data kwargs db).sent = pre ++ [x] ∧
    (gcm_send_json resp (pre ++ x :: post) data kwargs db).ret = Except.error e ∧
    ∀ mx, (pre ++ x :: post).length ≤ mx →
      (gcm_send_bulk_message resp (pre ++ x :: post) data kwargs db mx).ret =
        Except.error e := by
  have h := gcm_send_json_append_error resp pre x post data kwargs db e hpre hx
  refine ⟨by rw [h], by rw [h], ?_⟩
  intro mx hmx
  unfold gcm_send_bulk_message
  rw [if_neg (by omega)]
  rw [h]

/-- Witness for C9: the second of three identifiers draws an error
response; only the first two are sent and the error reaches the bulk
caller. -/
theorem gcm_send_json_error_aborts_witness :
    (gcm_send_json (fun m => if m.token = "b" then "Error=Boom" else "id=1")
        ["a", "b", "c"] [] [] []).sent = ["a", "b"] ∧
    (gcm_send_json (fun m => if m.token = "b" then "Error=Boom" else "id=1")
        ["a", "b", "c"] [] [] []).ret =
      Except.error (PyErr.gcmError "Error=Boom") ∧
    (gcm_send_bulk_message (fun m => if m.token = "b" then "Error=Boom" else "id=1")
        ["a", "b", "c"] [] [] [] 3).ret =
      Except.error (PyErr.gcmError "Error=Boom") := by
  have h := gcm_send_json_error_aborts
    (fun m => if m.token = "b" then "Error=Boom" else "id=1")
    ["a"] "b" ["c"] [] [] [] (PyErr.gcmError "Error=Boom") rfl rfl
  exact ⟨h.1, h.2.1, h.2.2 3 (by decide)⟩

/-! ## Bulk dispatch return value -/

theorem gcm_send_json_ok_noneVal (resp : MsgObjects → String) :
    ∀ (ids : List String) (data kwargs : List (String × PyVal))
      (db : List GCMDevice) (v : PyRet),
      (gcm_send_json resp ids data kwargs db).ret = Except.ok v →
      v = PyRet.noneVal := by
  intro ids
  induction ids with
  | nil =>
    intro data kwargs db v h
    cases h
    rfl
  | cons rid rest ih =>
    intro data kwargs db v h
    cases hp : (gcm_send_plain resp rid data kwargs db).ret with
    | error e0 =>
      rw [gcm_send_json_cons_error resp rid rest data kwargs db e0 hp] at h
      cases h
    | ok r0 =>
      rw [gcm_send_json_cons_ok resp rid rest data kwargs db r0 hp] at h
      exact ih _ _ _ v h

theorem bulk_loop_ok_replicate (resp : MsgObjects → String) :
    ∀ (cs : List (List String)) (data kwargs : List (String × PyVal))
      (db : List GCMDevice) (acc : List PyRet) (v : PyRet),
      (bulk_loop resp cs data kwargs db acc).ret = Except.ok v →
      v = PyRet.listVal (acc ++ List.replicate cs.length PyRet.noneVal) := by
  intro cs
  induction cs with
  | nil =>
    intro data kwargs db acc v h
    cases h
    simp
  | cons c rest ih =>
    intro data kwargs db acc v h
    cases hc : (gcm_send_json resp c data kwargs db).ret with
    | error e0 =>
      rw [bulk_loop_cons_error resp c rest data kwargs db acc e0 hc] at h
      cases h
    | ok r0 =>
      have hr0 : r0 = PyRet.noneVal :=
        gcm_send_json_ok_noneVal resp c data kwargs db r0 hc
      rw [bulk_loop_cons_ok resp c rest data kwargs db acc r0 hc] at h
      have := ih _ _ _ (acc ++ [r0]) v h
      rw [this, hr0]
      simp [List.replicate_succ]

theorem mentionsStr_replicate_none (n : Nat) :
    (PyRet.listVal (List.replicate n PyRet.noneVal)).mentionsStr = false := by
  induction n with
  | zero => simp [PyRet.mentionsStr]
  | succ n ih =>
    rw [List.replicate_succ]
    simp [PyRet.mentionsStr, ih]

/-- Evaluation of a fully concrete bulk send over the chunked path:
two identifiers with maximum 1, both drawing a plain success response. -/
theorem bulk_pair_eval :
    gcm_send_bulk_message (fun _ => "id=1") ["a", "b"] [] [] [] 1 =
      ⟨[["a"], ["b"]], ["a", "b"], [], [],
        Except.ok (PyRet.listVal [PyRet.noneVal, PyRet.noneVal])⟩ := by
  have hc : chunks ["a", "b"] 1 = [["a"], ["b"]] := by
    simp [chunks]
  unfold gcm_send_bulk_message
  rw [if_pos (by decide), hc]
  rfl

/-- C2 counterexample: bulk dispatch over two identifiers with
`max_recipients = 1`, both gateway responses being `"id=1"`: both
identifiers are sent, yet the caller receives `[None, None]` — a value
containing no string at all, so the raw responses are omitted from the
result, contrary to the claim. -/
theorem bulk_discards_responses_cex :
    (gcm_send_bulk_message (fun _ => "id=1") ["a", "b"] [] [] [] 1).sent =
        ["a", "b"] ∧
    (gcm_send_bulk_message (fun _ => "id=1") ["a", "b"] [] [] [] 1).ret =
        Except.ok (PyRet.listVal [PyRet.noneVal, PyRet.noneVal]) ∧
    (PyRet.listVal [PyRet.noneVal, PyRet.noneVal]).mentionsStr = false := by
  refine ⟨?_, ?_, by simp [PyRet.mentionsStr]⟩ <;> rw [bulk_pair_eval]

/-- C2 (amended): bulk dispatch never hands raw responses to the
caller: `_gcm_send_json` discards each per-identifier response and
returns `None`, so on success the chunked path returns one `None` per
chunk and the direct path returns `None`; no string occurs in the
returned value. -/
theorem bulk_returns_none_per_chunk (resp : MsgObjects → String)
    (ids : List String) (data kwargs : List (String × PyVal))
    (db : List GCMDevice) (mx : Nat) (v : PyRet)
    (h : (gcm_send_bulk_message resp ids data kwargs db mx).ret = Except.ok v) :
    (ids.length > mx →
      v = PyRet.listVal (List.replicate (chunks ids mx).length PyRet.noneVal)) ∧
    (ids.length ≤ mx → v = PyRet.noneVal) ∧
    v.mentionsStr = false := by
  unfold gcm_send_bulk_message at h
  by_cases hlen : ids.length > mx
  · rw [if_pos hlen] at h
    have hv := bulk_loop_ok_replicate resp (chunks ids mx) data kwargs db [] v h
    rw [List.nil_append] at hv
    refine ⟨fun _ => hv, fun hle => absurd hlen (by omega), ?_⟩
    rw [hv]
    exact mentionsStr_replicate_none _
  · rw [if_neg hlen] at h
    have hv := gcm_send_json_ok_noneVal resp ids data kwargs db v h
    refine ⟨fun hgt => absurd hgt hlen, fun _ => hv, ?_⟩
    rw [hv]
    simp [PyRet.mentionsStr]

/-- Witness for C2 (amended) at the chunked concrete input of the
counterexample. -/
theorem bulk_returns_none_per_chunk_witness :
    PyRet.listVal [PyRet.noneVal, PyRet.noneVal] =
      PyRet.listVal (List.replicate (chunks ["a", "b"] 1).length PyRet.noneVal) ∧
    (PyRet.listVal [PyRet.noneVal, PyRet.noneVal]).mentionsStr = false := by
  have h := bulk_returns_none_per_chunk (fun _ => "id=1") ["a", "b"] [] [] [] 1
    (PyRet.listVal [PyRet.noneVal, PyRet.noneVal]) (by rw [bulk_pair_eval])
  exact ⟨h.1 (by decide), h.2.2⟩

end PushNotifications
